import Mathlib

/-!
# Verification of the geco-afip identity / access-ticket subsystem

Shallow embedding of the WSAA ticket-cache manager
(`src/services/wsaa.service.ts`), the certificate store
(`src/services/certificate.service.ts`) and the CUIT validator
(`src/services/padron.service.ts`).

Modelling conventions:
* JavaScript timestamps (`Date.getTime()`) are `Int` milliseconds since epoch.
* JavaScript `Map` objects and the on-disk cache directory are association
  lists; `Map.set` updates in place preserving insertion order.
* JavaScript strings are Lean `String`s; `String.data` gives the char list.
* Fallible steps are `Except String` values; a `.error` that escapes a public
  method models a thrown exception crossing the component boundary.
* External collaborators (node-forge parsing, axios transport, the XML
  parser) are represented by their observable outcomes, supplied as
  environment fields; the control flow around them is translated from the
  source.
-/

namespace GecoAfip

/-! ## Generic association-list operations (JS `Map` / keyed file directory) -/

/-- First value bound to `k` (JS `Map.get`). -/
def alGet [DecidableEq κ] (k : κ) (m : List (κ × α)) : Option α :=
  (m.find? (fun p => p.1 = k)).map (·.2)

/-- Remove every binding of `k` (JS `Map.delete` / `fs.unlinkSync`). -/
def alDelete [DecidableEq κ] (k : κ) (m : List (κ × α)) : List (κ × α) :=
  m.filter (fun p => p.1 ≠ k)

/-- JS `Map.set`: overwrite in place if the key exists, else append. -/
def alSet [DecidableEq κ] (k : κ) (v : α) : List (κ × α) → List (κ × α)
  | [] => [(k, v)]
  | (k', v') :: rest => if k' = k then (k, v) :: rest else (k', v') :: alSet k v rest

/-! ## JS string helpers -/

/-- JS `String.prototype.includes(sub)`. -/
def jsIncludes (s sub : String) : Bool :=
  s.data.tails.any (fun t => sub.data.isPrefixOf t)

/-- JS `String.prototype.startsWith(p)`. -/
def jsStartsWith (s p : String) : Bool :=
  p.data.isPrefixOf s.data

/-- JS `String.prototype.substring(0, n)`. -/
def jsSubstringTo (s : String) (n : Nat) : String :=
  String.mk (s.data.take n)

/-- JS truthiness of an optional string (`undefined` and `""` are falsy). -/
def truthyStr : Option String → Bool
  | none => false
  | some s => s ≠ ""

/-- JS truthiness of an optional number (`undefined` and `0` are falsy). -/
def truthyNat : Option Nat → Bool
  | none => false
  | some n => n ≠ 0

/-! ## CUIT validation (`padron.service.ts`, `validarCUIT` / `normalizarDocumento`) -/

/-- A character matched by the JS regex class `\s`. -/
def isJsWhitespace (c : Char) : Bool :=
  decide (c.toNat = 0x09 ∨ c.toNat = 0x0A ∨ c.toNat = 0x0B ∨ c.toNat = 0x0C ∨
    c.toNat = 0x0D ∨ c.toNat = 0x20 ∨ c.toNat = 0xA0 ∨ c.toNat = 0x1680 ∨
    (0x2000 ≤ c.toNat ∧ c.toNat ≤ 0x200A) ∨ c.toNat = 0x2028 ∨ c.toNat = 0x2029 ∨
    c.toNat = 0x202F ∨ c.toNat = 0x205F ∨ c.toNat = 0x3000 ∨ c.toNat = 0xFEFF)

/-- A character removed by `documento.replace(/[-\s]/g, '')`. -/
def isRemovedByNormalize (c : Char) : Bool :=
  c == '-' || isJsWhitespace c

/-- `normalizarDocumento`: strip hyphens and whitespace. -/
def normalizarDocumento (documento : String) : String :=
  String.mk (documento.data.filter (fun c => !(isRemovedByNormalize c)))

/-- A character matched by the JS regex class `\d` (so `/^\d+$/` over a
nonempty string is `all isAsciiDigit`). -/
def isAsciiDigit (c : Char) : Bool :=
  decide (48 ≤ c.toNat ∧ c.toNat ≤ 57)

/-- `.map(Number)` applied to a single digit character. -/
def digitVal (c : Char) : Nat := c.toNat - 48

/-- The fixed weight vector of the modulus-11 check. -/
def multiplicadores : List Nat := [5, 4, 3, 2, 7, 6, 5, 4, 3, 2]

/-- The `suma` loop: weighted sum of the first ten digits. -/
def weightedSum (digitos : List Nat) : Nat :=
  (List.zipWith (· * ·) digitos multiplicadores).sum

/-- `validarCUIT` from `padron.service.ts`. -/
def validarCUIT (cuit : String) : Bool :=
  let l := (normalizarDocumento cuit).data
  if l.length = 11 ∧ l.all isAsciiDigit = true then
    let digitos := l.map digitVal
    let digitoVerificador := digitos.getD 10 0
    let resto := weightedSum digitos % 11
    let resultado := 11 - resto
    if resultado = 11 then digitoVerificador == 0
    else if resultado = 10 then digitoVerificador == 9
    else digitoVerificador == resultado
  else false

/-- Check digit as the specification words it: `11 − (weighted sum mod 11)`,
with 11 mapped to 0 and 10 mapped to 9. -/
def specCheckDigit (digitos : List Nat) : Nat :=
  let r := 11 - weightedSum digitos % 11
  if r = 11 then 0 else if r = 10 then 9 else r

/-! ## WSAA data model (`wsaa.service.ts`) -/

/-- An access ticket (TA): token, signature and expiration (ms since epoch). -/
structure TicketAcceso where
  token : String
  sign : String
  expirationTime : Int
deriving Repr, DecidableEq

/-- Result of `certificateService.getCertificateInfo`. -/
structure CertificateInfo where
  businessId : Nat
  cuit : String
  certPath : String
  keyPath : String
  password : String
  validFrom : Option Int
  validTo : Option Int
deriving Repr, DecidableEq

/-- The in-memory tier: `ticketCache : Map<string, TicketAcceso>`. -/
abbrev Mem := List (String × TicketAcceso)

/-- Content of one on-disk record `ta_<key>.json`: reading + JSON-parsing it
either fails or yields a ticket. -/
abbrev DiskFile := Except String TicketAcceso

deriving instance DecidableEq for Except

/-- The durable tier: one file per key in the cache directory. -/
abbrev Disk := List (String × DiskFile)

/-- Combined two-tier cache state owned by `WSAAService`. -/
structure WsaaState where
  mem : Mem
  disk : Disk
deriving Repr, DecidableEq

/-- The cache key `` `${businessId}_${service}` ``. -/
def cacheKey (businessId : Nat) (service : String) : String :=
  toString businessId ++ "_" ++ service

/-- 5-minute safety margin, in milliseconds. -/
def safetyMarginMs : Int := 5 * 60 * 1000

/-- `isTicketValid`: `new Date(expirationTime - 5*60*1000) > now`. -/
def isTicketValid (now : Int) (ticket : TicketAcceso) : Bool :=
  decide (ticket.expirationTime - safetyMarginMs > now)

/-- Outcome of the fast-tier check in step 1 of `getTicketAcceso`. -/
inductive FastTierOutcome where
  | hit (t : TicketAcceso)
  | miss
deriving Repr, DecidableEq

/-- Step 1 of `getTicketAcceso` (lines 33-44): serve a valid cached ticket
from memory, or drop an expired one and fall through. -/
def fastTierStep (now : Int) (mem : Mem) (key : String) : FastTierOutcome × Mem :=
  match alGet key mem with
  | some cached =>
    if isTicketValid now cached then (.hit cached, mem)
    else (.miss, alDelete key mem)
  | none => (.miss, mem)

/-! ## Acquisition pipeline (`requestTicketAcceso`, `sendToAFIP`, `parseResponse`) -/

/-- Observable outcome of the axios POST in `sendToAFIP`. -/
inductive TransportResult where
  | ok (data : String)
  | httpError (status : Nat) (statusText : String) (data : String)
  | networkError (msg : String)

/-- The nested login-ticket document inside `loginCmsReturn`:
`credentials` (with optional `token` / `sign`) and `header.expirationTime`. -/
structure TaDoc where
  credentials : Option (Option String × Option String)
  expirationTime : Option String

/-- The parsed SOAP body seen by `parseResponse`. -/
inductive SoapBody where
  | missing
  | loginResponse (ta : TaDoc)
  | noReturn
  | fault (faultcode faultstring : String)
  | empty

/-- The distinguished "ticket already issued on the AFIP side" message built
by `sendToAFIP` (lines 284-287). -/
def alreadyIssuedMsg : String :=
  "AFIP ya tiene un ticket válido cacheado en su servidor. Expirará en máximo 12 horas desde su creación."

/-- `sendToAFIP` (lines 242-295): success returns the response body; a
transport-level fault is classified by inspecting the first 1000 characters
of the body. -/
def sendToAFIP (tr : TransportResult) : Except String String :=
  match tr with
  | .ok data => .ok data
  | .httpError status statusText data =>
    let responseData := jsSubstringTo data 1000
    if jsIncludes responseData "alreadyAuthenticated" ||
        jsIncludes responseData "ya posee un TA valido" then
      .error alreadyIssuedMsg
    else
      .error ("AFIP WSAA HTTP error: " ++ toString status ++ " - " ++ statusText)
  | .networkError msg => .error msg

/-- Untrusted-certificate message of `parseResponse` (lines 340-345). -/
def untrustedMsg : String :=
  "❌ Certificado no confiable. Posibles causas:\n• El certificado no fue emitido por AFIP\n• Estás usando un certificado de homologación en producción (o viceversa)\n• El certificado no está firmado correctamente\nSolución: Verifica que el ambiente (.env) coincida con el certificado"

/-- Expired-certificate message of `parseResponse` (lines 347-348). -/
def expiredMsg : String :=
  "❌ Certificado expirado. Debes generar un nuevo CSR y solicitar nuevo certificado en AFIP."

/-- `parseResponse` (lines 300-394) over the parsed SOAP body. -/
def parseResponse (parseDate : String → Int) (body : SoapBody) :
    Except String TicketAcceso :=
  match body with
  | .missing => .error "Invalid SOAP response structure"
  | .fault faultcode faultstring =>
    if jsIncludes faultcode "cms.cert.untrusted" ||
        jsIncludes faultstring "Certificado no emitido" then
      .error untrustedMsg
    else if jsIncludes faultstring "expired" || jsIncludes faultstring "expirado" then
      .error expiredMsg
    else
      .error ("AFIP WSAA Fault: " ++ faultstring)
  | .empty => .error "No loginCmsResponse in SOAP response"
  | .noReturn => .error "No loginCmsReturn in response"
  | .loginResponse ta =>
    match ta.credentials with
    | none => .error "No credentials in TA response"
    | some (tok, sg) =>
      match tok, sg, ta.expirationTime with
      | some token, some sign, some expirationTimeStr =>
        if token = "" ∨ sign = "" ∨ expirationTimeStr = "" then
          .error "Missing token, sign or expirationTime in TA"
        else
          .ok { token := token, sign := sign,
                expirationTime := parseDate expirationTimeStr }
      | _, _, _ => .error "Missing token, sign or expirationTime in TA"

/-- Environment of one acquisition attempt: the certificate lookup result,
whether CMS signing succeeds, the transport outcome, the parsed body of a
successful response, and date parsing (`new Date(string)`). -/
structure AcqEnv where
  certInfo : Option CertificateInfo
  signOk : Bool
  transport : TransportResult
  okBody : SoapBody
  parseDate : String → Int

/-- Message of the error rethrown by `signTRA` when signing fails. -/
def signTRAErrMsg : String := "Error signing TRA"

/-- Body of the `try` in `requestTicketAcceso` (lines 116-149), paired with
the number of outbound transport calls made. -/
def requestTicketAccesoCore (env : AcqEnv) (businessId : Nat) :
    Except String TicketAcceso × Nat :=
  match env.certInfo with
  | none => (.error ("No certificate found for business " ++ toString businessId), 0)
  | some _certInfo =>
    if env.signOk then
      match sendToAFIP env.transport with
      | .error e => (.error e, 1)
      | .ok _data => (parseResponse env.parseDate env.okBody, 1)
    else (.error signTRAErrMsg, 0)

/-- Public `requestTicketAcceso`: its `catch` resolves every failure of the
core pipeline to `null`; there is no retry. -/
def requestTicketAcceso (env : AcqEnv) (businessId : Nat) :
    Option TicketAcceso × Nat :=
  match requestTicketAccesoCore env businessId with
  | (.ok t, n) => (some t, n)
  | (.error _, n) => (none, n)

/-! ## `getTicketAcceso` (lines 24-102) -/

/-- Environment of one `getTicketAcceso` call: current time, acquisition
environment, and whether the best-effort durable write succeeds. -/
structure GtaEnv where
  now : Int
  acq : AcqEnv
  diskWriteOk : Bool

/-- Step 3 of `getTicketAcceso` (lines 74-97): acquire a new ticket, store
it in memory and (best-effort) on disk. -/
def storeNewTicket (env : GtaEnv) (st : WsaaState) (key : String)
    (businessId : Nat) : Option TicketAcceso × WsaaState :=
  match (requestTicketAcceso env.acq businessId).1 with
  | some ticket =>
    let mem' := alSet key ticket st.mem
    let disk' := if env.diskWriteOk then alSet key (.ok ticket) st.disk else st.disk
    (some ticket, ⟨mem', disk'⟩)
  | none => (none, st)

/-- `getTicketAcceso`: fast tier, then durable tier, then acquisition.
A failed disk read (caught by the inner `try`) falls through to acquisition
with the file left in place. -/
def getTicketAcceso (env : GtaEnv) (st : WsaaState) (businessId : Nat)
    (service : String) : Option TicketAcceso × WsaaState :=
  let key := cacheKey businessId service
  match fastTierStep env.now st.mem key with
  | (.hit cached, _) => (some cached, st)
  | (.miss, mem1) =>
    match alGet key st.disk with
    | some (.ok cached) =>
      if isTicketValid env.now cached then
        (some cached, ⟨alSet key cached mem1, st.disk⟩)
      else
        storeNewTicket env ⟨mem1, alDelete key st.disk⟩ key businessId
    | some (.error _) => storeNewTicket env ⟨mem1, st.disk⟩ key businessId
    | none => storeNewTicket env ⟨mem1, st.disk⟩ key businessId

/-! ## `clearCache` (lines 399-447)

`fs.unlinkSync` may throw; `failing` lists the keys whose file deletion
fails. `clearCache` mutates the caches in place, so the state reached when
a deletion throws is returned together with the escaped fault (`some msg`).
-/

/-- Message of a file-deletion failure. -/
def unlinkFailMsg : String := "EACCES: permission denied"

/-- The per-business sweep (lines 424-430): for each collected key, delete
from memory, then delete the file if it exists; an `unlinkSync` throw
escapes the `forEach` at once. -/
def sweepKeys (failing : List String) : List String → WsaaState → WsaaState × Option String
  | [], st => (st, none)
  | k :: ks, st =>
    let mem' := alDelete k st.mem
    if (alGet k st.disk).isSome then
      if failing.contains k then (⟨mem', st.disk⟩, some unlinkFailMsg)
      else sweepKeys failing ks ⟨mem', alDelete k st.disk⟩
    else sweepKeys failing ks ⟨mem', st.disk⟩

/-- The global sweep (lines 437-444): unlink every `ta_*.json` file in the
cache directory; a throw escapes at once, leaving the rest in place. -/
def sweepAllFiles (failing : List String) : Disk → Disk × Option String
  | [] => ([], none)
  | (k, f) :: rest =>
    if failing.contains k then ((k, f) :: rest, some unlinkFailMsg)
    else sweepAllFiles failing rest

/-- `clearCache(businessId?, service?)`. The branch conditions are the JS
truthiness tests `businessId && service` / `businessId`. -/
def clearCache (businessId : Option Nat) (service : Option String)
    (failing : List String) (st : WsaaState) : WsaaState × Option String :=
  if truthyNat businessId && truthyStr service then
    let key := cacheKey (businessId.getD 0) (service.getD "")
    let mem' := alDelete key st.mem
    if (alGet key st.disk).isSome then
      if failing.contains key then (⟨mem', st.disk⟩, some unlinkFailMsg)
      else (⟨mem', alDelete key st.disk⟩, none)
    else (⟨mem', st.disk⟩, none)
  else if truthyNat businessId then
    let keysToDelete := (st.mem.map Prod.fst).filter
      (fun k => jsStartsWith k (toString (businessId.getD 0) ++ "_"))
    sweepKeys failing keysToDelete st
  else
    let swept := sweepAllFiles failing st.disk
    (⟨[], swept.1⟩, swept.2)

/-! ## Certificate store (`certificate.service.ts`) -/

/-- Parsed content of `info.json`. -/
structure InfoData where
  cuit : String
  password : String
  validFrom : Option Int
  validTo : Option Int
deriving Repr, DecidableEq

/-- The per-tenant files on disk: `info.json` (absent, unreadable, or
parsed) and existence of `cert.pem` / `key.pem`. -/
structure CertFs where
  infoJson : Option (Except String InfoData)
  certPemExists : Bool
  keyPemExists : Bool

/-- `config.certsPath`. -/
def certsPath : String := "certs"

/-- The cache-freshness test `cached.validTo && cached.validTo > new Date()`
(a present `Date` is always truthy). -/
def cachedStillValid (cached : CertificateInfo) (now : Int) : Bool :=
  match cached.validTo with
  | some v => decide (now < v)
  | none => false

/-- The in-process certificate cache `certsCache : Map<number, CertificateInfo>`. -/
abbrev CertCache := List (Nat × CertificateInfo)

/-- The disk-reading part of `getCertificateInfo` (lines 30-59); the third
component counts reads of persisted files (`readFileSync` of `info.json`). -/
def getCertificateInfoFromDisk (businessId : Nat) (fs : CertFs)
    (cache : CertCache) : Option CertificateInfo × CertCache × Nat :=
  match fs.infoJson with
  | none => (none, cache, 0)
  | some (.error _) => (none, cache, 1)
  | some (.ok infoData) =>
    let certDir := certsPath ++ "/" ++ toString businessId
    let certInfo : CertificateInfo :=
      { businessId := businessId, cuit := infoData.cuit,
        certPath := certDir ++ "/cert.pem", keyPath := certDir ++ "/key.pem",
        password := infoData.password,
        validFrom := infoData.validFrom, validTo := infoData.validTo }
    if fs.certPemExists && fs.keyPemExists then
      (some certInfo, alSet businessId certInfo cache, 1)
    else (none, cache, 1)

/-- `getCertificateInfo` (lines 17-64): serve from the in-process cache while
the validity window holds, else re-read the persisted files. -/
def getCertificateInfo (businessId : Nat) (fs : CertFs) (now : Int)
    (cache : CertCache) : Option CertificateInfo × CertCache × Nat :=
  match alGet businessId cache with
  | some cached =>
    if cachedStillValid cached now then (some cached, cache, 0)
    else getCertificateInfoFromDisk businessId fs (alDelete businessId cache)
  | none => getCertificateInfoFromDisk businessId fs cache

/-! ## Certificate ingestion from CRT + KEY (`saveCertificateFromCrtKey`) -/

/-- A rendered X.509 name attribute as node-forge exposes it. -/
structure X509Attr where
  name : Option String
  shortName : Option String
  value : String
deriving Repr, DecidableEq

/-- The parts of a parsed certificate this subsystem reads. -/
structure X509Cert where
  subject : List X509Attr
  issuer : List X509Attr
  notBefore : Int
  notAfter : Int
deriving Repr, DecidableEq

/-- node-forge `subject.getField(sn)` with a string argument: forge wraps
the string as `{shortName: sn}` and `_getAttribute` then compares only
`attr.shortName === sn` (a falsy `sn` matches nothing). Attributes such as
`serialNumber` are parsed by forge with a `name` but no `shortName` (its
short-name table covers CN/C/ST/L/O/OU/E), so they are unreachable through
this lookup. -/
def getField (attrs : List X509Attr) (sn : String) : Option X509Attr :=
  if sn = "" then none
  else attrs.find? (fun a => a.shortName == some sn)

/-- The JS regex match `/\d{11}/`: leftmost run of 11 consecutive decimal
digits. -/
def findDigitRun : List Char → Option (List Char)
  | [] => none
  | c :: cs =>
    let cand := (c :: cs).take 11
    if cand.length = 11 ∧ cand.all isAsciiDigit = true then some cand
    else findDigitRun cs

/-- `value.match(/\d{11}/)?.[0]` on a string. -/
def matchCuit (s : String) : Option String :=
  (findDigitRun s.data).map String.mk

/-- One strategy step: `if (field && field.value) { value.match(/\d{11}/) }`. -/
def cuitFromField (f : X509Attr) : Option String :=
  if f.value ≠ "" then matchCuit f.value else none

/-- Strategy 2 lookup: `getField('CN') || getField('commonName')`. -/
def cnLookup (attrs : List X509Attr) : Option X509Attr :=
  match getField attrs "CN" with
  | some f => some f
  | none => getField attrs "commonName"

/-- Strategy 3 field-name list (lines 319-328). -/
def knownCuitFields : List String :=
  ["serialNumber", "CN", "commonName", "UID", "userId", "SERIALNUMBER", "O",
   "organizationName"]

/-- Strategy 3 (lines 318-343): first known field whose value holds an
11-digit run. -/
def scanKnownFields (attrs : List X509Attr) : Option String :=
  knownCuitFields.findSome? (fun fieldName =>
    match attrs.find? (fun a => a.shortName == some fieldName || a.name == some fieldName) with
    | some f => cuitFromField f
    | none => none)

/-- JS template interpolation of a possibly-undefined string. -/
def jsTemplateOpt : Option String → String
  | some s => s
  | none => "undefined"

/-- `` `${a.name || a.shortName}` `` for one attribute. -/
def attrLabel (a : X509Attr) : String :=
  match a.name with
  | some n => if n = "" then jsTemplateOpt a.shortName else n
  | none => jsTemplateOpt a.shortName

/-- The rendered attribute string `attrs.map(a => `...=${a.value}`).join(', ')`. -/
def renderAttrs (attrs : List X509Attr) : String :=
  String.intercalate ", " (attrs.map (fun a => attrLabel a ++ "=" ++ a.value))

/-- CUIT extraction of `saveCertificateFromCrtKey` (lines 285-369): five
ordered strategies, first match wins. -/
def extractCuitCrtKey (cert : X509Cert) : Option String :=
  match (getField cert.subject "serialNumber").bind cuitFromField with
  | some cuit => some cuit
  | none =>
    match (cnLookup cert.subject).bind cuitFromField with
    | some cuit => some cuit
    | none =>
      match scanKnownFields cert.subject with
      | some cuit => some cuit
      | none =>
        match matchCuit (renderAttrs cert.subject) with
        | some cuit => some cuit
        | none => matchCuit (renderAttrs cert.issuer)

/-- Environment of one CRT+KEY ingestion: outcome of the PEM-then-DER
certificate parse and of the PEM key parse. -/
structure CrtKeyEnv where
  certParse : Option X509Cert
  keyParse : Bool
deriving Repr, DecidableEq

/-- What a successful CRT+KEY ingestion persists into `info.json`. -/
structure CrtKeySaveInfo where
  businessId : Nat
  cuit : String
  validFrom : Int
  validTo : Int
deriving Repr, DecidableEq

/-- Error message thrown when the certificate parses neither as PEM nor DER. -/
def certParseErrMsg : String :=
  "No se pudo leer el certificado. Asegúrate de que sea un archivo .crt válido de AFIP."

/-- Error message thrown when the private key does not parse as PEM. -/
def keyParseErrMsg : String :=
  "No se pudo leer la clave privada. Asegúrate de que sea un archivo .key válido en formato PEM."

/-- Error message thrown when no 11-digit CUIT is found. -/
def cuitNotFoundErrMsg : String :=
  "No se pudo extraer el CUIT del certificado. El certificado no contiene un CUIT válido de 11 dígitos."

/-- `saveCertificateFromCrtKey` (lines 202-437). Its `catch` rethrows
(`throw error`), so a failure escapes the component boundary: the result
type is `Except`. -/
def saveCertificateFromCrtKey (businessId : Nat) (env : CrtKeyEnv) :
    Except String CrtKeySaveInfo :=
  match env.certParse with
  | none => .error certParseErrMsg
  | some certificate =>
    if env.keyParse then
      match extractCuitCrtKey certificate with
      | none => .error cuitNotFoundErrMsg
      | some cuit =>
        .ok { businessId := businessId, cuit := cuit,
              validFrom := certificate.notBefore, validTo := certificate.notAfter }
    else .error keyParseErrMsg

/-! ## Certificate ingestion from CRT only (`saveCertificateFromCrt`) -/

/-- Strategy 3 field-name list of the CRT-only path (lines 554-561): no
`O` / `organizationName` here. -/
def knownCuitFieldsCrt : List String :=
  ["serialNumber", "CN", "commonName", "UID", "userId", "SERIALNUMBER"]

/-- Strategy 3 of the CRT-only path. -/
def scanKnownFieldsCrt (attrs : List X509Attr) : Option String :=
  knownCuitFieldsCrt.findSome? (fun fieldName =>
    match attrs.find? (fun a => a.shortName == some fieldName || a.name == some fieldName) with
    | some f => cuitFromField f
    | none => none)

/-- CUIT extraction of `saveCertificateFromCrt` (lines 520-599): strategies
1-4 only — unlike the CRT+KEY path there is no issuer scan. -/
def extractCuitCrt (cert : X509Cert) : Option String :=
  match (getField cert.subject "serialNumber").bind cuitFromField with
  | some cuit => some cuit
  | none =>
    match (cnLookup cert.subject).bind cuitFromField with
    | some cuit => some cuit
    | none =>
      match scanKnownFieldsCrt cert.subject with
      | some cuit => some cuit
      | none => matchCuit (renderAttrs cert.subject)

/-- Environment of one CRT-only ingestion: certificate parse outcome and the
caller-supplied CUIT, if any. (The private key is reused from disk or newly
generated afterwards; neither can fail in this model.) -/
structure CrtEnv where
  certParse : Option X509Cert
  providedCuit : Option String
deriving Repr, DecidableEq

/-- `providedCuit.replace(/[^0-9]/g, '')`. -/
def digitsOnly (s : String) : String :=
  String.mk (s.data.filter isAsciiDigit)

/-- Error message thrown when the supplied CUIT does not clean to 11 digits. -/
def providedCuitErrMsg : String := "El CUIT proporcionado debe tener 11 dígitos."

/-- Error message thrown when no CUIT is found in the CRT-only path. -/
def cuitNotFoundCrtErrMsg : String :=
  "No se pudo extraer el CUIT del certificado. El certificado no contiene un CUIT válido de 11 dígitos. Por favor proporciona el CUIT manualmente."

/-- `saveCertificateFromCrt` (lines 442-664). Its `catch` rethrows
(`throw error`), so failures escape the boundary. -/
def saveCertificateFromCrt (businessId : Nat) (env : CrtEnv) :
    Except String CrtKeySaveInfo :=
  match env.certParse with
  | none => .error certParseErrMsg
  | some certificate =>
    if truthyStr env.providedCuit then
      let clean := digitsOnly (env.providedCuit.getD "")
      if clean.data.length ≠ 11 then .error providedCuitErrMsg
      else
        .ok { businessId := businessId, cuit := clean,
              validFrom := certificate.notBefore, validTo := certificate.notAfter }
    else
      match extractCuitCrt certificate with
      | none => .error cuitNotFoundCrtErrMsg
      | some cuit =>
        .ok { businessId := businessId, cuit := cuit,
              validFrom := certificate.notBefore, validTo := certificate.notAfter }

/-! ## Certificate ingestion from PKCS#12 (`saveCertificateFromPfx`) -/

/-- Bags extracted from a decoded PKCS#12 container: the outer `Option` is
bag presence, the inner value is the `cert` / `key` member being defined. -/
structure PfxDecoded where
  certBag : Option (Option X509Cert)
  keyBag : Option Bool
deriving Repr, DecidableEq

/-- Environment of one PFX ingestion: `none` when ASN.1 decoding or the
passphrase check throws. -/
structure PfxEnv where
  decoded : Option PfxDecoded
deriving Repr, DecidableEq

/-- Message when decoding the container fails. -/
def pfxDecodeErrMsg : String := "Invalid PFX or MAC verification failed"

/-- Message when a bag is absent (lines 89-91). -/
def pfxMissingBagMsg : String :=
  "No se pudo extraer el certificado o la clave privada del archivo PFX"

/-- Message when a bag member is undefined (lines 96-98). -/
def pfxInvalidMsg : String := "Certificado o clave privada inválidos"

/-- Body of the `try` in `saveCertificateFromPfx` (lines 69-140). -/
def saveCertificateFromPfxBody (env : PfxEnv) : Except String Bool :=
  match env.decoded with
  | none => .error pfxDecodeErrMsg
  | some d =>
    match d.certBag, d.keyBag with
    | none, _ => .error pfxMissingBagMsg
    | _, none => .error pfxMissingBagMsg
    | some certOpt, some keyDefined =>
      match certOpt, keyDefined with
      | none, _ => .error pfxInvalidMsg
      | _, false => .error pfxInvalidMsg
      | some _certificate, true => .ok true

/-- Public `saveCertificateFromPfx`: its `catch` resolves every failure to
`false` at the boundary. -/
def saveCertificateFromPfx (env : PfxEnv) : Bool :=
  match saveCertificateFromPfxBody env with
  | .ok b => b
  | .error _ => false

/-! ## Association-list lemmas -/

theorem alGet_cons [DecidableEq κ] (k k' : κ) (v : α) (rest : List (κ × α)) :
    alGet k ((k', v) :: rest) = if k' = k then some v else alGet k rest := by
  by_cases h : k' = k <;> simp [alGet, List.find?, h]

theorem alDelete_cons [DecidableEq κ] (key k' : κ) (v : α) (rest : List (κ × α)) :
    alDelete key ((k', v) :: rest) =
      if k' = key then alDelete key rest else (k', v) :: alDelete key rest := by
  by_cases h : k' = key <;> simp [alDelete, List.filter, h]

theorem alGet_alDelete [DecidableEq κ] (k key : κ) (m : List (κ × α)) :
    alGet k (alDelete key m) = if k = key then none else alGet k m := by
  induction m with
  | nil => simp [alGet, alDelete]
  | cons p rest ih =>
    obtain ⟨k', v⟩ := p
    rw [alDelete_cons]
    by_cases hpk : k' = key
    · rw [if_pos hpk, ih, alGet_cons]
      by_cases hk : k = key
      · simp [hk]
      · have : ¬ k' = k := fun e => hk (e ▸ hpk)
        simp [hk, this]
    · rw [if_neg hpk, alGet_cons, alGet_cons, ih]
      by_cases hp1 : k' = k
      · have : ¬ k = key := fun e => hpk (hp1.trans e)
        simp [hp1, this]
      · simp [hp1]

theorem alGet_alSet_self [DecidableEq κ] (k : κ) (v : α) (m : List (κ × α)) :
    alGet k (alSet k v m) = some v := by
  induction m with
  | nil => simp [alGet, alSet, List.find?]
  | cons p rest ih =>
    obtain ⟨k', v'⟩ := p
    by_cases hp : k' = k
    · simp [alSet, hp, alGet_cons]
    · simp only [alSet, hp, if_false]
      rw [alGet_cons, if_neg hp]
      exact ih

theorem alGet_of_not_mem_keys [DecidableEq κ] (k : κ) (m : List (κ × α))
    (h : k ∉ m.map Prod.fst) : alGet k m = none := by
  induction m with
  | nil => simp [alGet]
  | cons p rest ih =>
    simp only [List.map, List.mem_cons, not_or] at h
    rw [show p :: rest = (p.1, p.2) :: rest from rfl, alGet_cons,
      if_neg (fun e => h.1 e.symm)]
    exact ih h.2

theorem alGet_isSome_of_mem_keys [DecidableEq κ] (k : κ) (m : List (κ × α))
    (h : k ∈ m.map Prod.fst) : (alGet k m).isSome = true := by
  induction m with
  | nil => simp at h
  | cons p rest ih =>
    rw [show p :: rest = (p.1, p.2) :: rest from rfl, alGet_cons]
    by_cases hp : p.1 = k
    · simp [hp]
    · simp only [List.map, List.mem_cons] at h
      rcases h with h | h
      · exact absurd h.symm hp
      · rw [if_neg hp]
        exact ih h

theorem alDelete_of_not_mem [DecidableEq κ] (k : κ) (m : List (κ × α))
    (h : alGet k m = none) : alDelete k m = m := by
  induction m with
  | nil => rfl
  | cons p rest ih =>
    rw [show p :: rest = (p.1, p.2) :: rest from rfl] at *
    rw [alGet_cons] at h
    by_cases hp : p.1 = k
    · simp [hp] at h
    · rw [alDelete_cons, if_neg (fun e => hp e), ih (by simpa [hp] using h)]


theorem digit_not_removed (c : Char) (h : isAsciiDigit c = true) :
    isRemovedByNormalize c = false := by
  have hc : ¬ (c = '-') := by
    intro e
    rw [e] at h
    exact absurd h (by decide)
  simp only [isAsciiDigit, decide_eq_true_eq] at h
  simp only [isRemovedByNormalize, isJsWhitespace, Bool.or_eq_false_iff,
    beq_eq_false_iff_ne, ne_eq, decide_eq_false_iff_not]
  exact ⟨hc, by omega⟩

theorem normalizar_digits (s : String) (h : s.data.all isAsciiDigit = true) :
    normalizarDocumento s = s := by
  have : s.data.filter (fun c => !(isRemovedByNormalize c)) = s.data := by
    apply List.filter_eq_self.mpr
    intro c hc
    have := digit_not_removed c (by
      rw [List.all_eq_true] at h
      exact h c hc)
    simp [this]
  show String.mk _ = s
  rw [this]

/-- C2: for every string of exactly 11 decimal digits, `validarCUIT` accepts
it iff the modulus-11 check digit (weights `[5,4,3,2,7,6,5,4,3,2]`,
`11 − remainder`, with 11 mapped to 0 and 10 mapped to 9) equals the 11th
digit; every input that is not 11 digits after normalization is rejected. -/
theorem C2_validarCUIT_check_digit (s : String) :
    (s.data.length = 11 → s.data.all isAsciiDigit = true →
      (validarCUIT s = true ↔
        (s.data.map digitVal).getD 10 0 = specCheckDigit (s.data.map digitVal)))
  ∧ (¬ ((normalizarDocumento s).data.length = 11 ∧
        (normalizarDocumento s).data.all isAsciiDigit = true) →
      validarCUIT s = false) := by
  constructor
  · intro h11 hdig
    simp only [validarCUIT, normalizar_digits s hdig]
    rw [if_pos ⟨h11, hdig⟩]
    simp only [specCheckDigit]
    by_cases hA : 11 - weightedSum (s.data.map digitVal) % 11 = 11
    · simp [hA]
    · by_cases hB : 11 - weightedSum (s.data.map digitVal) % 11 = 10
      · simp [hA, hB]
      · simp [hA, hB]
  · intro h
    simp only [validarCUIT]
    rw [if_neg h]

/-- Witness for C2 at the concrete valid CUIT `20311111117` and the
rejected input `123`. -/
theorem C2_validarCUIT_check_digit_witness :
    validarCUIT "20311111117" = true ∧ validarCUIT "123" = false := by
  refine ⟨((C2_validarCUIT_check_digit "20311111117").1 (by decide) (by decide)).mpr (by decide),
    (C2_validarCUIT_check_digit "123").2 (by decide)⟩

/-! ## C1: fast-tier validity margin -/

/-- C1: a cached fast-tier ticket is served by `getTicketAcceso` iff
`expirationTime − 5min > now`; with 5 minutes or less remaining it is
removed from the fast tier before the call continues to the other tiers. -/
theorem C1_fast_tier_margin (env : GtaEnv) (st : WsaaState) (businessId : Nat)
    (service : String) (t : TicketAcceso)
    (h : alGet (cacheKey businessId service) st.mem = some t) :
    ((fastTierStep env.now st.mem (cacheKey businessId service)).1 = .hit t ↔
      t.expirationTime - safetyMarginMs > env.now)
  ∧ (t.expirationTime - safetyMarginMs > env.now →
      getTicketAcceso env st businessId service = (some t, st))
  ∧ (t.expirationTime - safetyMarginMs ≤ env.now →
      alGet (cacheKey businessId service)
        (fastTierStep env.now st.mem (cacheKey businessId service)).2 = none) := by
  by_cases hv : t.expirationTime - safetyMarginMs > env.now
  · have hvb : isTicketValid env.now t = true := by
      simp [isTicketValid, hv]
    have hstep : fastTierStep env.now st.mem (cacheKey businessId service)
        = (.hit t, st.mem) := by
      simp [fastTierStep, h, hvb]
    refine ⟨?_, ?_, ?_⟩
    · rw [hstep]
      exact ⟨fun _ => hv, fun _ => rfl⟩
    · intro _
      simp [getTicketAcceso, hstep]
    · intro hle
      exact absurd hv (not_lt.mpr hle)
  · have hvb : isTicketValid env.now t = false := by
      simp [isTicketValid, hv]
    have hstep : fastTierStep env.now st.mem (cacheKey businessId service)
        = (.miss, alDelete (cacheKey businessId service) st.mem) := by
      simp [fastTierStep, h, hvb]
    refine ⟨?_, ?_, ?_⟩
    · rw [hstep]
      exact ⟨fun hx => absurd hx (by simp), fun hg => absurd hg hv⟩
    · intro hg
      exact absurd hg hv
    · intro _
      rw [hstep]
      simpa using alGet_alDelete (cacheKey businessId service)
        (cacheKey businessId service) st.mem

/-- Witness for C1: a ticket expiring well in the future is served from the
fast tier unchanged; one inside the margin is dropped. -/
theorem C1_fast_tier_margin_witness :
    getTicketAcceso ⟨0, ⟨none, true, .networkError "down", .missing, fun _ => 0⟩, true⟩
        ⟨[("7_wsfe", ⟨"tok", "sig", 10000000⟩)], []⟩ 7 "wsfe"
      = (some ⟨"tok", "sig", 10000000⟩, ⟨[("7_wsfe", ⟨"tok", "sig", 10000000⟩)], []⟩)
  ∧ alGet "7_wsfe"
      (fastTierStep 9900000 [("7_wsfe", ⟨"tok", "sig", 10000000⟩)] "7_wsfe").2 = none := by
  constructor
  · exact (C1_fast_tier_margin
      ⟨0, ⟨none, true, .networkError "down", .missing, fun _ => 0⟩, true⟩
      ⟨[("7_wsfe", ⟨"tok", "sig", 10000000⟩)], []⟩ 7 "wsfe"
      ⟨"tok", "sig", 10000000⟩ (by decide)).2.1 (by decide)
  · have h := (C1_fast_tier_margin
      ⟨9900000, ⟨none, true, .networkError "down", .missing, fun _ => 0⟩, true⟩
      ⟨[("7_wsfe", ⟨"tok", "sig", 10000000⟩)], []⟩ 7 "wsfe"
      ⟨"tok", "sig", 10000000⟩ (by decide)).2.2 (by decide)
    simpa using h

/-! ## C3: missing certificate aborts before any network call -/

/-- C3: when the certificate store reports no certificate, the acquisition
fails with the missing-certificate error, the public call returns the
negative outcome, and zero transport calls are made. -/
theorem C3_missing_certificate_no_network (env : AcqEnv) (businessId : Nat)
    (h : env.certInfo = none) :
    requestTicketAccesoCore env businessId =
      (.error ("No certificate found for business " ++ toString businessId), 0)
  ∧ requestTicketAcceso env businessId = (none, 0) := by
  have hcore : requestTicketAccesoCore env businessId =
      (.error ("No certificate found for business " ++ toString businessId), 0) := by
    simp [requestTicketAccesoCore, h]
  exact ⟨hcore, by simp [requestTicketAcceso, hcore]⟩

/-- Witness for C3 at tenant 7 with no certificate configured. -/
theorem C3_missing_certificate_no_network_witness :
    requestTicketAcceso ⟨none, true, .ok "never sent", .missing, fun _ => 0⟩ 7 = (none, 0) :=
  (C3_missing_certificate_no_network
    ⟨none, true, .ok "never sent", .missing, fun _ => 0⟩ 7 rfl).2

/-! ## C5: serialNumber precedence over common name -/

/-- C5: the claimed (and spec-intended) precedence fails in the code.
Strategy 1 calls `subject.getField('serialNumber')` (part_000:289), but
forge's string-form `getField` searches by `shortName` only and a parsed
`serialNumber` attribute (name `serialNumber`, no shortName) is invisible
to it, so strategy 1 is dead code. At a certificate whose subject carries
11-digit numbers both in the serialNumber attribute and in the common
name, the ingestion resolves the tax id to the common-name value instead
of the serialNumber value. -/
theorem C5_serialNumber_strategy_dead :
    getField
      [⟨some "serialNumber", none, "CUIT 20311111117"⟩,
       ⟨some "commonName", some "CN", "Empresa 20999999995"⟩] "serialNumber" = none
  ∧ extractCuitCrtKey
      ⟨[⟨some "serialNumber", none, "CUIT 20311111117"⟩,
        ⟨some "commonName", some "CN", "Empresa 20999999995"⟩], [], 0, 1000⟩
      = some "20999999995"
  ∧ saveCertificateFromCrtKey 7
      ⟨some ⟨[⟨some "serialNumber", none, "CUIT 20311111117"⟩,
        ⟨some "commonName", some "CN", "Empresa 20999999995"⟩], [], 0, 1000⟩, true⟩
      = .ok ⟨7, "20999999995", 0, 1000⟩ := by
  refine ⟨by decide, by decide, by decide⟩

/-! ## C6: "ticket already issued" fault handling -/

/-- C6 (amended): when the authority fault arrives as a non-success HTTP
response whose body (first 1000 characters) contains the marker, the
acquisition yields the distinguished already-issued error — whose message
states the foreign ticket expires within at most 12 hours — exactly one
transport call is made, and the public call terminates with the negative
outcome (no internal retry). -/
theorem C6_already_issued_http_fault (env : AcqEnv) (businessId : Nat)
    (status : Nat) (statusText data : String)
    (htr : env.transport = .httpError status statusText data)
    (hm : jsIncludes (jsSubstringTo data 1000) "ya posee un TA valido" = true)
    (hc : env.certInfo.isSome = true) (hs : env.signOk = true) :
    requestTicketAccesoCore env businessId = (.error alreadyIssuedMsg, 1)
  ∧ jsIncludes alreadyIssuedMsg "12 horas" = true
  ∧ requestTicketAcceso env businessId = (none, 1) := by
  obtain ⟨ci, hci⟩ := Option.isSome_iff_exists.mp hc
  have hsend : sendToAFIP env.transport = .error alreadyIssuedMsg := by
    rw [htr]
    simp [sendToAFIP, hm]
  have hcore : requestTicketAccesoCore env businessId = (.error alreadyIssuedMsg, 1) := by
    simp [requestTicketAccesoCore, hci, hs, hsend]
  exact ⟨hcore, by decide, by simp [requestTicketAcceso, hcore]⟩

/-- Witness for C6 (amended) at a concrete HTTP 500 fault response. -/
theorem C6_already_issued_http_fault_witness :
    requestTicketAcceso
      ⟨some ⟨5, "20311111117", "cp", "kp", "pw", none, none⟩, true,
        .httpError 500 "Internal Server Error"
          "<fault>El CEE ya posee un TA valido</fault>", .missing, fun _ => 0⟩ 5
      = (none, 1) :=
  (C6_already_issued_http_fault
    ⟨some ⟨5, "20311111117", "cp", "kp", "pw", none, none⟩, true,
      .httpError 500 "Internal Server Error"
        "<fault>El CEE ya posee un TA valido</fault>", .missing, fun _ => 0⟩ 5
    500 "Internal Server Error" "<fault>El CEE ya posee un TA valido</fault>"
    rfl (by decide) rfl rfl).2.2

/-- Counterexample for C6 as stated: a fault whose text contains
"ya posee un TA valido" but is delivered inside a successful (2xx) SOAP
envelope is classified by `parseResponse` as a generic authority fault —
not the already-issued outcome, and with no reference to the 12-hour
expiry. -/
theorem C6_counterexample :
    jsIncludes "El CEE ya posee un TA valido" "ya posee un TA valido" = true
  ∧ requestTicketAccesoCore
      ⟨some ⟨5, "20311111117", "cp", "kp", "pw", none, none⟩, true, .ok "<xml/>",
        .fault "soap:Server" "El CEE ya posee un TA valido", fun _ => 0⟩ 5
      = (.error "AFIP WSAA Fault: El CEE ya posee un TA valido", 1)
  ∧ jsIncludes "AFIP WSAA Fault: El CEE ya posee un TA valido" "12 horas" = false
  ∧ "AFIP WSAA Fault: El CEE ya posee un TA valido" ≠ alreadyIssuedMsg := by
  refine ⟨by decide, ?_, by decide, by decide⟩
  rfl

/-! ## C7: exact-key clear -/

/-- C7 (amended): for a nonzero tenant id and a nonempty service name,
`clearCache(tenant, service)` removes exactly that key from both tiers and
leaves every other key unchanged in both tiers. -/
theorem C7_clear_exact_key (businessId : Nat) (hb : businessId ≠ 0)
    (service : String) (hs : service ≠ "") (st : WsaaState) :
    (clearCache (some businessId) (some service) [] st).2 = none
  ∧ alGet (cacheKey businessId service)
      (clearCache (some businessId) (some service) [] st).1.mem = none
  ∧ alGet (cacheKey businessId service)
      (clearCache (some businessId) (some service) [] st).1.disk = none
  ∧ ∀ k, k ≠ cacheKey businessId service →
      alGet k (clearCache (some businessId) (some service) [] st).1.mem
        = alGet k st.mem
      ∧ alGet k (clearCache (some businessId) (some service) [] st).1.disk
        = alGet k st.disk := by
  have hcond : (truthyNat (some businessId) && truthyStr (some service)) = true := by
    simp [truthyNat, truthyStr, hb, hs]
  cases hd : alGet (cacheKey businessId service) st.disk with
  | some file =>
    have hres : clearCache (some businessId) (some service) [] st
        = (⟨alDelete (cacheKey businessId service) st.mem,
            alDelete (cacheKey businessId service) st.disk⟩, none) := by
      simp [clearCache, hcond, hd, List.contains]
    rw [hres]
    refine ⟨rfl, ?_, ?_, ?_⟩
    · simpa using alGet_alDelete (cacheKey businessId service)
        (cacheKey businessId service) st.mem
    · simpa using alGet_alDelete (cacheKey businessId service)
        (cacheKey businessId service) st.disk
    · intro k hk
      constructor
      · rw [alGet_alDelete, if_neg hk]
      · rw [alGet_alDelete, if_neg hk]
  | none =>
    have hres : clearCache (some businessId) (some service) [] st
        = (⟨alDelete (cacheKey businessId service) st.mem, st.disk⟩, none) := by
      simp [clearCache, hcond, hd]
    rw [hres]
    refine ⟨rfl, ?_, hd, ?_⟩
    · simpa using alGet_alDelete (cacheKey businessId service)
        (cacheKey businessId service) st.mem
    · intro k hk
      exact ⟨by rw [alGet_alDelete, if_neg hk], rfl⟩

/-- Witness for C7 (amended): clearing `(1, "wsfe")` drops that key and
leaves the sibling key `1_ws_sr_padron_a5` in place. -/
theorem C7_clear_exact_key_witness :
    alGet "1_wsfe"
      (clearCache (some 1) (some "wsfe") []
        ⟨[("1_wsfe", ⟨"t", "s", 9⟩), ("1_ws_sr_padron_a5", ⟨"u", "v", 8⟩)],
         [("1_wsfe", .ok ⟨"t", "s", 9⟩)]⟩).1.mem = none
  ∧ alGet "1_ws_sr_padron_a5"
      (clearCache (some 1) (some "wsfe") []
        ⟨[("1_wsfe", ⟨"t", "s", 9⟩), ("1_ws_sr_padron_a5", ⟨"u", "v", 8⟩)],
         [("1_wsfe", .ok ⟨"t", "s", 9⟩)]⟩).1.mem
      = some ⟨"u", "v", 8⟩ := by
  have h := C7_clear_exact_key 1 (by decide) "wsfe" (by decide)
    ⟨[("1_wsfe", ⟨"t", "s", 9⟩), ("1_ws_sr_padron_a5", ⟨"u", "v", 8⟩)],
     [("1_wsfe", .ok ⟨"t", "s", 9⟩)]⟩
  have hk : cacheKey 1 "wsfe" = "1_wsfe" := by decide
  rw [hk] at h
  refine ⟨h.2.1, ?_⟩
  have h2 := (h.2.2.2 "1_ws_sr_padron_a5" (by decide)).1
  rw [h2]
  decide

/-- Counterexample for C7 as stated: tenant id 0 is falsy in JS, so
`clearCache(0, "wsfe")` falls into the global branch and wipes the entry of
a different tenant instead of touching only key `0_wsfe`. -/
theorem C7_counterexample :
    clearCache (some 0) (some "wsfe") [] ⟨[("1_wsfe", ⟨"tok", "sig", 99⟩)], []⟩
      = (⟨[], []⟩, none)
  ∧ ("1_wsfe" : String) ≠ cacheKey 0 "wsfe" := by
  exact ⟨rfl, by decide⟩

/-! ## C10: tenant id 0 triggers the global branch -/

/-- C10: `clearCache` with tenant id 0 (with or without a service) is
routed by the truthiness test to the global branch: every tenant's entries
are removed from both tiers. -/
theorem C10_zero_tenant_clears_all (service : Option String) (st : WsaaState) :
    clearCache (some 0) service [] st = (⟨[], []⟩, none) := by
  have hsweep : ∀ d : Disk, sweepAllFiles [] d = ([], none) := by
    intro d
    induction d with
    | nil => rfl
    | cons p rest ih =>
      obtain ⟨k, f⟩ := p
      simpa [sweepAllFiles, List.contains] using ih
  have h0 : truthyNat (some 0) = false := by decide
  simp [clearCache, h0, hsweep st.disk]

/-! ## C8: per-tenant sweep -/

/-- With no deletion failures, the per-tenant sweep deletes each collected
key from both tiers. -/
theorem sweepKeys_no_failures (ks : List String) (st : WsaaState) :
    sweepKeys [] ks st =
      (⟨ks.foldl (fun m k => alDelete k m) st.mem,
        ks.foldl (fun d k => alDelete k d) st.disk⟩, none) := by
  induction ks generalizing st with
  | nil => rfl
  | cons k ks ih =>
    obtain ⟨mem, disk⟩ := st
    by_cases hd : (alGet k disk).isSome = true
    · simpa [sweepKeys, List.contains, hd] using ih ⟨alDelete k mem, alDelete k disk⟩
    · have hnone : alGet k disk = none := by
        cases hx : alGet k disk with
        | none => rfl
        | some v => rw [hx] at hd; simp at hd
      have hdel : alDelete k disk = disk := alDelete_of_not_mem k disk hnone
      have := ih ⟨alDelete k mem, disk⟩
      simp only [sweepKeys, List.contains, hd, if_false, this]
      simp [hdel]

/-- Folding deletions over a key list removes exactly those keys. -/
theorem alGet_foldl_delete [DecidableEq κ] (ks : List κ) (k : κ) (m : List (κ × α)) :
    alGet k (ks.foldl (fun acc key => alDelete key acc) m) =
      if k ∈ ks then none else alGet k m := by
  induction ks generalizing m with
  | nil => simp
  | cons key ks ih =>
    rw [List.foldl_cons, ih, alGet_alDelete]
    by_cases hk : k ∈ ks
    · simp [hk]
    · by_cases hke : k = key
      · simp [hke, hk]
      · simp [hk, hke]

/-- C8 (amended): `clearCache` with only a (nonzero) tenant id removes from
both tiers exactly those of the tenant's keys that are present in the fast
tier; durable records of the tenant with no fast-tier entry are left in
place; and a deletion failure on one entry aborts the removal of the
remaining entries, the fault escaping `clearCache`. -/
theorem C8_clear_tenant_sweep (businessId : Nat) (hb : businessId ≠ 0)
    (st : WsaaState) :
    ((clearCache (some businessId) none [] st).2 = none
  ∧ (∀ k, alGet k (clearCache (some businessId) none [] st).1.mem =
      if jsStartsWith k (toString businessId ++ "_") = true ∧ k ∈ st.mem.map Prod.fst
      then none else alGet k st.mem)
  ∧ (∀ k, alGet k (clearCache (some businessId) none [] st).1.disk =
      if jsStartsWith k (toString businessId ++ "_") = true ∧ k ∈ st.mem.map Prod.fst
      then none else alGet k st.disk))
  ∧ (∀ failing k ks,
      (st.mem.map Prod.fst).filter
          (fun x => jsStartsWith x (toString businessId ++ "_")) = k :: ks →
      failing.contains k = true → (alGet k st.disk).isSome = true →
      clearCache (some businessId) none failing st
        = (⟨alDelete k st.mem, st.disk⟩, some unlinkFailMsg)) := by
  have hcond1 : ¬ ((truthyNat (some businessId) && truthyStr (none : Option String)) = true) := by
    simp [truthyStr]
  have hcond2 : truthyNat (some businessId) = true := by
    simp [truthyNat, hb]
  have hmem : ∀ k, (k ∈ (st.mem.map Prod.fst).filter
      (fun x => jsStartsWith x (toString businessId ++ "_"))) ↔
      (jsStartsWith k (toString businessId ++ "_") = true ∧ k ∈ st.mem.map Prod.fst) := by
    intro k
    rw [List.mem_filter]
    exact ⟨fun h => ⟨h.2, h.1⟩, fun h => ⟨h.2, h.1⟩⟩
  constructor
  · have hres : clearCache (some businessId) none [] st
        = sweepKeys [] ((st.mem.map Prod.fst).filter
            (fun x => jsStartsWith x (toString businessId ++ "_"))) st := by
      unfold clearCache
      rw [if_neg hcond1, if_pos hcond2]
      simp only [Option.getD_some]
    rw [hres, sweepKeys_no_failures]
    refine ⟨rfl, ?_, ?_⟩
    · intro k
      rw [alGet_foldl_delete]
      by_cases hk : jsStartsWith k (toString businessId ++ "_") = true ∧
          k ∈ st.mem.map Prod.fst
      · rw [if_pos ((hmem k).mpr hk), if_pos hk]
      · rw [if_neg (fun hx => hk ((hmem k).mp hx)), if_neg hk]
    · intro k
      rw [alGet_foldl_delete]
      by_cases hk : jsStartsWith k (toString businessId ++ "_") = true ∧
          k ∈ st.mem.map Prod.fst
      · rw [if_pos ((hmem k).mpr hk), if_pos hk]
      · rw [if_neg (fun hx => hk ((hmem k).mp hx)), if_neg hk]
  · intro failing k ks hfilter hfail hdisk
    have hres : clearCache (some businessId) none failing st
        = sweepKeys failing (k :: ks) st := by
      unfold clearCache
      rw [if_neg hcond1, if_pos hcond2]
      simp only [Option.getD_some]
      rw [show ((st.mem.map Prod.fst).filter
        (fun x => jsStartsWith x (toString businessId ++ "_"))) = k :: ks from hfilter]
    rw [hres]
    simp only [sweepKeys]
    rw [if_pos hdisk, if_pos hfail]

/-- Witness for C8 (amended): tenant 5's fast-tier-backed key is removed
from both tiers, its orphan durable record survives; with a failing
deletion, the fault escapes. -/
theorem C8_clear_tenant_sweep_witness :
    alGet "5_wsfe" (clearCache (some 5) none []
      ⟨[("5_wsfe", ⟨"t", "s", 9⟩)],
       [("5_wsfe", .ok ⟨"t", "s", 9⟩), ("5_orphan", .ok ⟨"o", "p", 7⟩)]⟩).1.disk = none
  ∧ alGet "5_orphan" (clearCache (some 5) none []
      ⟨[("5_wsfe", ⟨"t", "s", 9⟩)],
       [("5_wsfe", .ok ⟨"t", "s", 9⟩), ("5_orphan", .ok ⟨"o", "p", 7⟩)]⟩).1.disk
      = some (.ok ⟨"o", "p", 7⟩)
  ∧ clearCache (some 5) none ["5_a"]
      ⟨[("5_a", ⟨"a", "b", 1⟩), ("5_b", ⟨"c", "d", 2⟩)],
       [("5_a", .ok ⟨"a", "b", 1⟩), ("5_b", .ok ⟨"c", "d", 2⟩)]⟩
      = (⟨[("5_b", ⟨"c", "d", 2⟩)],
          [("5_a", .ok ⟨"a", "b", 1⟩), ("5_b", .ok ⟨"c", "d", 2⟩)]⟩, some unlinkFailMsg) := by
  have h := C8_clear_tenant_sweep 5 (by decide)
    ⟨[("5_wsfe", ⟨"t", "s", 9⟩)],
     [("5_wsfe", .ok ⟨"t", "s", 9⟩), ("5_orphan", .ok ⟨"o", "p", 7⟩)]⟩
  have h2 := C8_clear_tenant_sweep 5 (by decide)
    ⟨[("5_a", ⟨"a", "b", 1⟩), ("5_b", ⟨"c", "d", 2⟩)],
     [("5_a", .ok ⟨"a", "b", 1⟩), ("5_b", .ok ⟨"c", "d", 2⟩)]⟩
  refine ⟨?_, ?_, ?_⟩
  · rw [h.1.2.2 "5_wsfe"]
    decide
  · rw [h.1.2.2 "5_orphan"]
    decide
  · have := h2.2 ["5_a"] "5_a" ["5_b"] (by decide) (by decide) (by decide)
    rw [this]
    decide

/-- Counterexample for C8 as stated: a durable record of tenant 5 with no
fast-tier entry is not removed by `clearCache(5)`; and a failing deletion
aborts the sweep, leaving the sibling key `5_b` in both tiers. -/
theorem C8_counterexample :
    clearCache (some 5) none [] ⟨[], [("5_wsfe", .ok ⟨"t", "s", 99⟩)]⟩
      = (⟨[], [("5_wsfe", .ok ⟨"t", "s", 99⟩)]⟩, none)
  ∧ ((clearCache (some 5) none ["5_a"]
      ⟨[("5_a", ⟨"a", "b", 1⟩), ("5_b", ⟨"c", "d", 2⟩)],
       [("5_a", .ok ⟨"a", "b", 1⟩), ("5_b", .ok ⟨"c", "d", 2⟩)]⟩).2 = some unlinkFailMsg
    ∧ alGet "5_b" (clearCache (some 5) none ["5_a"]
        ⟨[("5_a", ⟨"a", "b", 1⟩), ("5_b", ⟨"c", "d", 2⟩)],
         [("5_a", .ok ⟨"a", "b", 1⟩), ("5_b", .ok ⟨"c", "d", 2⟩)]⟩).1.disk
        = some (.ok ⟨"c", "d", 2⟩)) := by
  exact ⟨rfl, rfl, rfl⟩

/-! ## C9: lookup idempotence -/

/-- A successful disk read leaves the returned entry in the cache. -/
theorem getCertificateInfoFromDisk_caches (businessId : Nat) (fs : CertFs)
    (cache : CertCache) (ci : CertificateInfo) (cache' : CertCache) (r : Nat)
    (h : getCertificateInfoFromDisk businessId fs cache = (some ci, cache', r)) :
    alGet businessId cache' = some ci := by
  unfold getCertificateInfoFromDisk at h
  cases hfs : fs.infoJson with
  | none =>
    rw [hfs] at h
    simp at h
  | some e =>
    cases e with
    | error msg =>
      rw [hfs] at h
      simp at h
    | ok infoData =>
      rw [hfs] at h
      dsimp only at h
      by_cases hex : (fs.certPemExists && fs.keyPemExists) = true
      · rw [if_pos hex] at h
        injection h with h1 h23
        injection h23 with h2 h3
        injection h1 with h1'
        subst h1'
        rw [← h2]
        exact alGet_alSet_self businessId _ cache
      · rw [if_neg hex] at h
        simp at h

/-- The public lookup also leaves the returned entry in the cache. -/
theorem getCertificateInfo_caches (businessId : Nat) (fs : CertFs) (now : Int)
    (cache : CertCache) (ci : CertificateInfo) (cache' : CertCache) (r : Nat)
    (h : getCertificateInfo businessId fs now cache = (some ci, cache', r)) :
    alGet businessId cache' = some ci := by
  unfold getCertificateInfo at h
  cases hc : alGet businessId cache with
  | some cached =>
    rw [hc] at h
    dsimp only at h
    by_cases hv : cachedStillValid cached now = true
    · rw [if_pos hv] at h
      injection h with h1 h23
      injection h23 with h2 h3
      injection h1 with h1'
      subst h1'
      rw [← h2]
      exact hc
    · rw [if_neg hv] at h
      exact getCertificateInfoFromDisk_caches businessId fs _ ci cache' r h
  | none =>
    rw [hc] at h
    dsimp only at h
    exact getCertificateInfoFromDisk_caches businessId fs cache ci cache' r h

/-- C9: two consecutive `getCertificateInfo` calls with no intervening
ingestion and a still-running validity window return equal data, and the
persisted files are read during the first call only (the second call does
zero reads). -/
theorem C9_lookup_idempotent (businessId : Nat) (fs : CertFs) (cache0 : CertCache)
    (now1 now2 : Int) (ci : CertificateInfo) (cache1 : CertCache) (reads1 : Nat)
    (h : getCertificateInfo businessId fs now1 cache0 = (some ci, cache1, reads1))
    (v : Int) (hv : ci.validTo = some v) (hnow : now2 < v) :
    getCertificateInfo businessId fs now2 cache1 = (some ci, cache1, 0) := by
  have hcache : alGet businessId cache1 = some ci :=
    getCertificateInfo_caches businessId fs now1 cache0 ci cache1 reads1 h
  have hvalid : cachedStillValid ci now2 = true := by
    simp [cachedStillValid, hv, hnow]
  unfold getCertificateInfo
  rw [hcache]
  dsimp only
  rw [if_pos hvalid]

/-- Witness for C9: a first lookup that reads `info.json` once, then a
second lookup served entirely from the in-process cache. -/
theorem C9_lookup_idempotent_witness :
    getCertificateInfo 7 ⟨some (.ok ⟨"20311111117", "pw", some 0, some 1000⟩), true, true⟩ 20
        [(7, ⟨7, "20311111117", "certs/7/cert.pem", "certs/7/key.pem", "pw", some 0, some 1000⟩)]
      = (some ⟨7, "20311111117", "certs/7/cert.pem", "certs/7/key.pem", "pw", some 0, some 1000⟩,
         [(7, ⟨7, "20311111117", "certs/7/cert.pem", "certs/7/key.pem", "pw", some 0, some 1000⟩)],
         0) := by
  exact C9_lookup_idempotent 7
    ⟨some (.ok ⟨"20311111117", "pw", some 0, some 1000⟩), true, true⟩ [] 10 20
    ⟨7, "20311111117", "certs/7/cert.pem", "certs/7/key.pem", "pw", some 0, some 1000⟩
    [(7, ⟨7, "20311111117", "certs/7/cert.pem", "certs/7/key.pem", "pw", some 0, some 1000⟩)]
    1 (by decide) 1000 rfl (by decide)

/-! ## C4: boundary fault discipline -/

/-- C4 (amended): ticket request (`getTicketAcceso`/`requestTicketAcceso`),
PKCS#12 ingestion and lookup resolve every internal failure to a typed
negative return value at the boundary; but CRT+KEY (and CRT-only) ingestion
rethrows its failures, and `clearCache` propagates a file-deletion
failure. -/
theorem C4_boundary_faults :
    (∀ env businessId e n, requestTicketAccesoCore env businessId = (.error e, n) →
      requestTicketAcceso env businessId = (none, n))
  ∧ (∀ env e, saveCertificateFromPfxBody env = .error e →
      saveCertificateFromPfx env = false)
  ∧ (∀ businessId fs now cache e,
      fs.infoJson = some (.error e) → alGet businessId cache = none →
      getCertificateInfo businessId fs now cache = (none, cache, 1))
  ∧ saveCertificateFromCrtKey 9 ⟨none, true⟩ = .error certParseErrMsg
  ∧ saveCertificateFromCrt 9 ⟨none, none⟩ = .error certParseErrMsg
  ∧ (clearCache (some 1) (some "wsfe") ["1_wsfe"]
      ⟨[], [("1_wsfe", .ok ⟨"t", "s", 5⟩)]⟩).2 = some unlinkFailMsg := by
  refine ⟨?_, ?_, ?_, rfl, rfl, by decide⟩
  · intro env businessId e n h
    simp [requestTicketAcceso, h]
  · intro env e h
    simp [saveCertificateFromPfx, h]
  · intro businessId fs now cache e hfs hc
    unfold getCertificateInfo
    rw [hc]
    unfold getCertificateInfoFromDisk
    rw [hfs]

/-- Witness for C4 (amended) at concrete failing environments. -/
theorem C4_boundary_faults_witness :
    requestTicketAcceso ⟨none, true, .networkError "down", .missing, fun _ => 0⟩ 3 = (none, 0)
  ∧ saveCertificateFromPfx ⟨none⟩ = false
  ∧ getCertificateInfo 4 ⟨some (.error "bad json"), true, true⟩ 0 [] = (none, [], 1) := by
  refine ⟨?_, ?_, ?_⟩
  · exact C4_boundary_faults.1 ⟨none, true, .networkError "down", .missing, fun _ => 0⟩ 3
      ("No certificate found for business " ++ toString 3) 0 rfl
  · exact C4_boundary_faults.2.1 ⟨none⟩ pfxDecodeErrMsg rfl
  · exact C4_boundary_faults.2.2.1 4 ⟨some (.error "bad json"), true, true⟩ 0 [] "bad json"
      rfl rfl

/-- Counterexample for C4 as stated: CRT+KEY ingestion of an unparseable
certificate does not resolve to a negative return value — the fault is
rethrown past the component boundary (and a failing file deletion likewise
escapes `clearCache`). -/
theorem C4_counterexample :
    saveCertificateFromCrtKey 9 ⟨none, true⟩ = .error certParseErrMsg
  ∧ (clearCache (some 2) (some "wsfe") ["2_wsfe"]
      ⟨[], [("2_wsfe", .ok ⟨"t", "s", 5⟩)]⟩).2 = some unlinkFailMsg := by
  exact ⟨rfl, by decide⟩

end GecoAfip
